import Mathlib

/-!
Shallow embedding of `vfs_appointment_bot/vfs_bot/vfs_bot.py`: the abstract
`VfsBot` workflow (`run`), parameter collection (`get_appointment_params`)
and notification fan-out (`notify_appointment`), together with theorems about
the orchestration resource, error and notification behaviour.

Python conventions mapped to Lean:
* a raised exception is an `Except.error` value of type `Err`;
* the Playwright page and browser are opaque: the environment `Env` supplies
  the outcome of each browser interaction;
* `with sync_playwright() as p:` is a protected region: leaving it, normally
  or through an exception, stops Playwright, which tears down any browser it
  launched that is still open.  `RunResult.close_count` counts closures of
  the browser session, whether by an explicit `browser.close()` call or by
  that teardown on exit from the region.
-/

namespace VfsAppointmentBot

/-- Python exception values crossing the boundaries the orchestrator cares
about.  Every constructor models a subclass of Python `Exception`, so a bare
`except Exception` catches all of them, while `except KeyError` catches only
`keyError`.  `timeoutError` models `playwright TimeoutError` raised by
`page.wait_for_selector`; `loginError` models the `LoginError` class declared
in `vfs_bot.py`. -/
inductive Err where
  | keyError (key : String)
  | attributeError (msg : String)
  | timeoutError (selector : String)
  | loginError (msg : String)
  | exception (msg : String)
  deriving Repr, DecidableEq

/-- A configuration store: section and key to optional value. -/
abbrev Config := String → String → Option String

/-- Modelled from the spec: the module
`vfs_appointment_bot.utils.config_reader` (not under `src/`) provides
`get_config_value(section, key, default=None)`.  Per the spec a missing
required key is a configuration error; `run` catches `KeyError` around its
configuration block, so a missing key without a default raises `KeyError`,
while a call passing a default returns the default when the key is absent. -/
def get_config_value (cfg : Config) (sec key : String) : Option String → Except Err String
  | some d => .ok ((cfg sec key).getD d)
  | none =>
    match cfg sec key with
    | some v => .ok v
    | none => .error (Err.keyError (sec ++ "." ++ key))

/-- The parsed CLI arguments object (`argparse.Namespace`).  Its
`appointment_params` attribute is either `None` or a Python dict; the dict
maps each present key either to a string or to `None`.  Looking up an absent
key in the dict raises `KeyError`. -/
structure ArgsNamespace where
  appointment_params : Option (List (String × Option String))

/-- Python dict lookup, distinguishing an absent key (`none`) from a key
mapped to `None` (`some none`). -/
def dict_find (d : List (String × Option String)) (k : String) : Option (Option String) :=
  (d.find? (fun p => p.1 == k)).map Prod.snd

/-- `key.replace("_", " ")` for the single-character pattern used by
`get_appointment_params`. -/
def underscores_to_spaces (s : String) : String :=
  String.mk (s.data.map (fun c => if c = '_' then ' ' else c))

/-- The interactive prompt text `f"Enter the {key_name}: "`. -/
def prompt_label (key : String) : String :=
  "Enter the " ++ underscores_to_spaces key ++ ": "

/-- Message of the `AttributeError` raised by
`getattr(None, "appointment_params")`. -/
def attribute_error_message : String :=
  "NoneType object has no attribute appointment_params"

/-- The loop body of `VfsBot.get_appointment_params`: for each declared key,
evaluate `getattr(args, "appointment_params")` (raising `AttributeError`
when `args` is `None`), use the provided value when the dict is present and
maps the key to a non-`None` value, prompt otherwise; a dict that is present
but lacks the key raises `KeyError`.  Returns the collected parameters in
key order together with the prompts issued, in order. -/
def collect_params (args : Option ArgsNamespace) (inp : String → String) :
    List String → Except Err (List (String × String) × List String)
  | [] => .ok ([], [])
  | key :: rest =>
    match args with
    | none => .error (Err.attributeError attribute_error_message)
    | some ns =>
      match ns.appointment_params with
      | none =>
        match collect_params args inp rest with
        | .error e => .error e
        | .ok (ps, ls) => .ok ((key, inp (prompt_label key)) :: ps, prompt_label key :: ls)
      | some d =>
        match dict_find d key with
        | none => .error (Err.keyError key)
        | some (some v) =>
          match collect_params args inp rest with
          | .error e => .error e
          | .ok (ps, ls) => .ok ((key, v) :: ps, ls)
        | some none =>
          match collect_params args inp rest with
          | .error e => .error e
          | .ok (ps, ls) => .ok ((key, inp (prompt_label key)) :: ps, prompt_label key :: ls)

/-- `VfsBot.get_appointment_params(self, args)`, with `self`, the interactive
`input` builtin and the issued prompts made explicit. -/
def get_appointment_params (keys : List String) (args : Option ArgsNamespace)
    (inp : String → String) : Except Err (List (String × String) × List String) :=
  collect_params args inp keys

/-- Python `", ".join(xs)`. -/
def join_comma : List String → String
  | [] => ""
  | [x] => x
  | x :: y :: rest => x ++ ", " ++ join_comma (y :: rest)

/-- The notification message built by `VfsBot.notify_appointment`:
`f"Found appointment(s) for {join(values)} on {join(dates)}"`. -/
def notify_message (params : List (String × String)) (dates : List String) : String :=
  "Found appointment(s) for " ++ join_comma (params.map Prod.snd) ++ " on " ++ join_comma dates

/-- Python `channels.split(",")` over the character list. -/
def split_comma_chars : List Char → List (List Char)
  | [] => [[]]
  | c :: cs =>
    if c = ',' then [] :: split_comma_chars cs
    else
      match split_comma_chars cs with
      | [] => [[c]]
      | w :: ws => (c :: w) :: ws

/-- Python `s.split(",")`. -/
def split_on_comma (s : String) : List String :=
  (split_comma_chars s.data).map String.mk

/-- The fan-out loop of `VfsBot.notify_appointment`: for each channel,
resolve a notification client (a failure there propagates, aborting the
loop), then attempt `send_notification(message)` inside
`try/except Exception`, so a delivery failure is logged and the loop
continues.  Returns the delivery attempts made (channel, message, outcome)
and the exception that escaped the loop, if any. -/
def notify_loop (get_client : String → Except Err Unit)
    (send : String → String → Except Err Unit) (message : String) :
    List String → List (String × String × Except Err Unit) × Option Err
  | [] => ([], none)
  | ch :: rest =>
    match get_client ch with
    | .error e => ([], some e)
    | .ok _ =>
      match notify_loop get_client send message rest with
      | (atts, err) => ((ch, message, send ch message) :: atts, err)

/-- `VfsBot.notify_appointment`.  The channel list comes from the
`notification.channels` configuration value; an empty string logs a warning
and sends nothing.  The returned pair is the list of delivery attempts and
the exception that escaped `notify_appointment`, if any. -/
def notify_appointment (cfg : Config) (get_client : String → Except Err Unit)
    (send : String → String → Except Err Unit)
    (params : List (String × String)) (dates : List String) :
    List (String × String × Except Err Unit) × Option Err :=
  let message := notify_message params dates
  match get_config_value cfg "notification" "channels" none with
  | .error e => ([], some e)
  | .ok channels =>
    if channels.length = 0 then ([], none)
    else notify_loop get_client send message (split_on_comma channels)

/-- A concrete `VfsBot` subclass, reduced to the data and step outcomes the
base-class `run` observes: the country codes and declared parameter keys set
in `__init__`, and the outcomes of the three abstract steps
(`pre_login_steps`, `login`, `check_for_appontment`). -/
structure Adapter where
  source_country_code : String
  destination_country_code : String
  appointment_param_keys : List String
  pre_login_steps : Except Err Unit
  login : String → String → Except Err Unit
  check_for_appontment : List (String × String) → Except Err (Option (List String))

/-- The external world a run interacts with: the configuration store, the
interactive `input` builtin, the outcome of `page.goto`, whether the
anti-bot challenge marker `div[appcloudflarerecaptcha]` appears within the
300000 ms bound of `page.wait_for_selector`, and, modelled from the spec,
the notification client factory `get_notification_client` (not under
`src/`; resolution outcome per channel) and the resolved clients'
`send_notification` outcomes. -/
structure Env where
  config : Config
  inp : String → String
  goto : String → Except Err Unit
  challenge_appears : Bool
  get_client : String → Except Err Unit
  send : String → String → Except Err Unit

/-- The selector of the challenge-resolution marker element. -/
def challenge_selector : String := "div[appcloudflarerecaptcha]"

/-- The bound, in milliseconds, on the anti-bot challenge wait. -/
def challenge_timeout_ms : Nat := 300000

/-- The message of the `LoginError` raised by `run` when the login step
throws. -/
def login_failed_message : String :=
  "\x1B[1;31mLogin failed. Please verify your username and password by logging in to the browser and try again.\x1B[0m"

/-- Outcome of the body of the `with sync_playwright()` region:
the value returned or exception raised, the number of explicit
`browser.close()` calls executed, the invocations of `notify_appointment`
(recorded by message) and the delivery attempts made. -/
structure SessionOutcome where
  result : Except Err Bool
  explicit_closes : Nat
  notify_msgs : List String
  sends : List (String × String × Except Err Unit)
  deriving Repr

/-- The body of the `with sync_playwright()` region of `VfsBot.run`:
navigate, wait out the anti-bot challenge, pre-login, login (any exception
re-raised as `LoginError` after an explicit `browser.close()`), check for
appointments with exceptions caught and logged, notify on a truthy date
list, explicit `browser.close()`, return whether appointments were found. -/
def session_body (env : Env) (bot : Adapter) (params : List (String × String))
    (email password url : String) : SessionOutcome :=
  match env.goto url with
  | .error e => ⟨.error e, 0, [], []⟩
  | .ok _ =>
    if env.challenge_appears then
      match bot.pre_login_steps with
      | .error e => ⟨.error e, 0, [], []⟩
      | .ok _ =>
        match bot.login email password with
        | .error _ => ⟨.error (Err.loginError login_failed_message), 1, [], []⟩
        | .ok _ =>
          match bot.check_for_appontment params with
          | .error _ => ⟨.ok false, 1, [], []⟩
          | .ok (some (d :: ds)) =>
            match notify_appointment env.config env.get_client env.send params (d :: ds) with
            | (atts, some _) => ⟨.ok false, 1, [notify_message params (d :: ds)], atts⟩
            | (atts, none) => ⟨.ok true, 1, [notify_message params (d :: ds)], atts⟩
          | .ok (some []) => ⟨.ok false, 1, [], []⟩
          | .ok none => ⟨.ok false, 1, [], []⟩
    else ⟨.error (Err.timeoutError challenge_selector), 0, [], []⟩

/-- Observable outcome of one `VfsBot.run` call.  `result` is `.ok none`
when the Python method returns `None` (the bare `return` on the
configuration-error path), `.ok (some b)` when it returns a boolean, and
`.error e` when it raises.  `browser_type` and `headless_mode` record the
configuration values read (lines 61 and 62); `launch_headless` records the
`headless` argument actually passed to `launch`, when a browser was
launched; `close_count` counts closures of the browser session. -/
structure RunResult where
  result : Except Err (Option Bool)
  browser_type : String
  headless_mode : String
  browser_opened : Bool
  launch_headless : Option Bool
  close_count : Nat
  notify_msgs : List String
  sends : List (String × String × Except Err Unit)
  deriving Repr

/-- A `RunResult` for an exit before any browser was opened. -/
def no_browser_result (cfg : Config) (r : Except Err (Option Bool)) : RunResult :=
  { result := r
    browser_type := (cfg "browser" "type").getD "firefox"
    headless_mode := (cfg "browser" "headless").getD "True"
    browser_opened := false
    launch_headless := none
    close_count := 0
    notify_msgs := []
    sends := [] }

/-- The `try`-block of lines 60 to 64 of `run`: read the browser type and
headless flag (both with defaults) and the URL keyed by `"<src>-<dst>"`
(no default). -/
def config_block (cfg : Config) (url_key : String) : Except Err (String × String × String) :=
  match get_config_value cfg "browser" "type" (some "firefox") with
  | .error e => .error e
  | .ok bt =>
    match get_config_value cfg "browser" "headless" (some "True") with
    | .error e => .error e
    | .ok hm =>
      match get_config_value cfg "vfs-url" url_key none with
      | .error e => .error e
      | .ok url => .ok (bt, hm, url)

/-- The `RunResult` of a run that entered the `with sync_playwright()`
region.  The browser is launched with the hardcoded `headless=False` of
line 77; on exit from the region Playwright is stopped, closing the browser
when no explicit `browser.close()` already did. -/
def with_session (env : Env) (bot : Adapter) (params : List (String × String))
    (email password url : String) : RunResult :=
  { result := Except.map some (session_body env bot params email password url).result
    browser_type := (env.config "browser" "type").getD "firefox"
    headless_mode := (env.config "browser" "headless").getD "True"
    browser_opened := true
    launch_headless := some false
    close_count := (session_body env bot params email password url).explicit_closes
      + (if (session_body env bot params email password url).explicit_closes = 0 then 1 else 0)
    notify_msgs := (session_body env bot params email password url).notify_msgs
    sends := (session_body env bot params email password url).sends }

/-- `VfsBot.run(self, args)`.  The configuration `try`-block catches
`KeyError` and returns `None`; the credential reads of lines 69 and 70 sit
outside that block, so their `KeyError` propagates; parameter collection
(line 72) runs before the browser is opened (line 75). -/
def run (env : Env) (bot : Adapter) (args : Option ArgsNamespace) : RunResult :=
  match config_block env.config (bot.source_country_code ++ "-" ++ bot.destination_country_code) with
  | .error (Err.keyError _) => no_browser_result env.config (.ok none)
  | .error e => no_browser_result env.config (.error e)
  | .ok (_, _, vfs_url) =>
    match get_config_value env.config "vfs-credential" "email" none with
    | .error e => no_browser_result env.config (.error e)
    | .ok email =>
      match get_config_value env.config "vfs-credential" "password" none with
      | .error e => no_browser_result env.config (.error e)
      | .ok password =>
        match get_appointment_params bot.appointment_param_keys args env.inp with
        | .error e => no_browser_result env.config (.error e)
        | .ok (params, _) => with_session env bot params email password vfs_url

/-! Concrete configurations, environments and adapters used as witnesses and
counterexamples. -/

/-- A complete configuration for the IE to NL route. -/
def full_config : Config := fun sec key =>
  if sec == "vfs-url" && key == "IE-NL" then some "https://visa.example"
  else if sec == "vfs-credential" && key == "email" then some "user@example.com"
  else if sec == "vfs-credential" && key == "password" then some "hunter2"
  else if sec == "notification" && key == "channels" then some "email,sms"
  else none

/-- `full_config` with the URL entry removed. -/
def config_no_url : Config := fun sec key =>
  if sec == "vfs-url" then none else full_config sec key

/-- `full_config` with the credential email removed. -/
def config_no_email : Config := fun sec key =>
  if sec == "vfs-credential" && key == "email" then none else full_config sec key

/-- `full_config` with the notification channels entry removed. -/
def config_no_channels : Config := fun sec key =>
  if sec == "notification" then none else full_config sec key

/-- A benign environment: complete configuration, successful navigation, the
challenge marker appears, every channel resolves, every delivery succeeds. -/
def base_env : Env :=
  { config := full_config
    inp := fun _ => ""
    goto := fun _ => .ok ()
    challenge_appears := true
    get_client := fun _ => .ok ()
    send := fun _ _ => .ok () }

def env_no_url : Env := { base_env with config := config_no_url }

def env_no_email : Env := { base_env with config := config_no_email }

def env_no_channels : Env := { base_env with config := config_no_channels }

def env_no_challenge : Env := { base_env with challenge_appears := false }

/-- An adapter with no declared parameter keys whose appointment check
returns the given result. -/
def ok_adapter (dates : Option (List String)) : Adapter :=
  { source_country_code := "IE"
    destination_country_code := "NL"
    appointment_param_keys := []
    pre_login_steps := .ok ()
    login := fun _ _ => .ok ()
    check_for_appontment := fun _ => .ok dates }

/-- Adapter finding two appointment dates. -/
def base_adapter : Adapter := ok_adapter (some ["2024-05-01", "2024-05-03"])

/-- Adapter finding no dates. -/
def adapter_no_dates : Adapter := ok_adapter none

/-- Adapter whose login step throws. -/
def adapter_bad_login : Adapter :=
  { base_adapter with login := fun _ _ => .error (Err.exception "bad credentials") }

/-- Adapter declaring the three parameter keys of `VfsBotNl`. -/
def adapter_nl_keys : Adapter :=
  { base_adapter with
      appointment_param_keys := ["visa_center", "visa_category", "visa_sub_category"] }

/-- A delivery function whose `email` channel client throws on send. -/
def bad_email_send : String → String → Except Err Unit := fun c _ =>
  if c == "email" then .error (Err.exception "smtp down") else .ok ()

/-! Helper definitions and lemmas. -/

/-- The value `get_appointment_params` assigns to a key when the provided
dict is `d`: the provided value when present and non-`None`, the prompted
input otherwise. -/
def param_value (d : List (String × Option String)) (inp : String → String) (k : String) : String :=
  match dict_find d k with
  | some (some v) => v
  | _ => inp (prompt_label k)

/-- Whether `get_appointment_params` prompts for key `k` when the provided
dict is `d` (the key is present and mapped to `None`). -/
def prompts_for (d : List (String × Option String)) (k : String) : Bool :=
  match dict_find d k with
  | some none => true
  | _ => false

/-- `t` occurs as a contiguous substring of `s`. -/
def str_contains (s t : String) : Prop :=
  ∃ a b : List Char, s.data = a ++ t.data ++ b

theorem str_data_append (s t : String) : (s ++ t).data = s.data ++ t.data := rfl

theorem join_comma_mem_contains : ∀ (xs : List String) (x : String), x ∈ xs →
    str_contains (join_comma xs) x
  | [], x, hx => absurd hx (List.not_mem_nil x)
  | [a], x, hx => by
    have hxa : x = a := by simpa using hx
    subst hxa
    exact ⟨[], [], by simp [join_comma]⟩
  | a :: b :: rest, x, hx => by
    rcases List.mem_cons.mp hx with h | h
    · subst h
      exact ⟨[], (", " ++ join_comma (b :: rest)).data, by
        simp [join_comma, str_data_append, List.append_assoc]⟩
    · rcases join_comma_mem_contains (b :: rest) x h with ⟨p, q, hpq⟩
      exact ⟨(a ++ ", ").data ++ p, q, by
        simp [join_comma, str_data_append, hpq, List.append_assoc]⟩

theorem notify_message_contains_value (params : List (String × String)) (dates : List String)
    (v : String) (hv : v ∈ params.map Prod.snd) :
    str_contains (notify_message params dates) v := by
  rcases join_comma_mem_contains _ v hv with ⟨p, q, hpq⟩
  refine ⟨("Found appointment(s) for ").data ++ p,
    q ++ (" on ").data ++ (join_comma dates).data, ?_⟩
  simp [notify_message, str_data_append, hpq, List.append_assoc]

theorem notify_message_contains_date (params : List (String × String)) (dates : List String)
    (x : String) (hx : x ∈ dates) :
    str_contains (notify_message params dates) x := by
  rcases join_comma_mem_contains _ x hx with ⟨p, q, hpq⟩
  refine ⟨("Found appointment(s) for ").data ++ (join_comma (params.map Prod.snd)).data
      ++ (" on ").data ++ p, q, ?_⟩
  simp [notify_message, str_data_append, hpq, List.append_assoc]

theorem config_block_ok (cfg : Config) (k url : String) (h : cfg "vfs-url" k = some url) :
    config_block cfg k = .ok ((cfg "browser" "type").getD "firefox",
      (cfg "browser" "headless").getD "True", url) := by
  simp [config_block, get_config_value, h]

/-- When the URL, both credentials and the collected parameters all resolve,
`run` enters the `with sync_playwright()` region. -/
theorem run_session_eq (env : Env) (bot : Adapter) (args : Option ArgsNamespace)
    (url em pw : String) (params : List (String × String)) (prompts : List String)
    (hurl : env.config "vfs-url"
      (bot.source_country_code ++ "-" ++ bot.destination_country_code) = some url)
    (hem : env.config "vfs-credential" "email" = some em)
    (hpw : env.config "vfs-credential" "password" = some pw)
    (hpar : get_appointment_params bot.appointment_param_keys args env.inp
      = .ok (params, prompts)) :
    run env bot args = with_session env bot params em pw url := by
  simp [run, config_block_ok env.config _ url hurl, get_config_value, hem, hpw, hpar]

theorem session_explicit_closes (env : Env) (bot : Adapter) (params : List (String × String))
    (em pw url : String) :
    (session_body env bot params em pw url).explicit_closes = 0 ∨
    (session_body env bot params em pw url).explicit_closes = 1 := by
  unfold session_body
  repeat' split
  all_goals simp

theorem closes_arith (n : Nat) (h : n = 0 ∨ n = 1) :
    n + (if n = 0 then 1 else 0) = 1 := by
  rcases h with h | h <;> simp [h]

theorem notify_loop_all_resolve (gc : String → Except Err Unit)
    (send : String → String → Except Err Unit) (msg : String) (l : List String)
    (h : ∀ c ∈ l, gc c = .ok ()) :
    notify_loop gc send msg l = (l.map (fun c => (c, msg, send c msg)), none) := by
  induction l with
  | nil => rfl
  | cons c cs ih =>
    have hc : gc c = .ok () := h c (by simp)
    have ihs := ih (fun a ha => h a (by simp [ha]))
    simp [notify_loop, hc, ihs]

/-! Claim theorems. -/

/-- C1: for every run that opens a browser session, the session is closed
exactly once before `run` returns or raises — one closure on every path
through the `with sync_playwright()` region (normal completion, pre-login
exception, login exception, appointment-check exception, challenge
timeout), and none when no browser was opened. -/
theorem with_session_close_count (env : Env) (bot : Adapter)
    (params : List (String × String)) (em pw url : String) :
    (with_session env bot params em pw url).close_count = 1 :=
  closes_arith _ (session_explicit_closes env bot params em pw url)

theorem with_session_opened (env : Env) (bot : Adapter)
    (params : List (String × String)) (em pw url : String) :
    (with_session env bot params em pw url).browser_opened = true := rfl

theorem run_closes_browser_exactly_once (env : Env) (bot : Adapter)
    (args : Option ArgsNamespace) :
    (run env bot args).close_count
      = if (run env bot args).browser_opened then 1 else 0 := by
  unfold run
  split
  · simp [no_browser_result]
  · simp [no_browser_result]
  · split
    · simp [no_browser_result]
    · split
      · simp [no_browser_result]
      · split
        · simp [no_browser_result]
        · simp [with_session_close_count, with_session_opened]

/-- C2 (amended): a missing `"<src>-<dst>"` URL key makes `run` return
`None` cleanly, before any browser is opened; a missing credential key
makes `run` raise a `KeyError` that propagates past the caller, though
still before any browser is opened; the browser type and headless flag are
filled with defaults when absent and never abort the run. -/
theorem run_missing_config_behaviour (env : Env) (bot : Adapter)
    (args : Option ArgsNamespace) :
    (env.config "vfs-url"
        (bot.source_country_code ++ "-" ++ bot.destination_country_code) = none →
      (run env bot args).result = .ok none
      ∧ (run env bot args).browser_opened = false
      ∧ (run env bot args).close_count = 0)
    ∧ (∀ u, env.config "vfs-url"
          (bot.source_country_code ++ "-" ++ bot.destination_country_code) = some u →
        env.config "vfs-credential" "email" = none →
        (run env bot args).result = .error (Err.keyError "vfs-credential.email")
        ∧ (run env bot args).browser_opened = false)
    ∧ (run env bot args).browser_type = (env.config "browser" "type").getD "firefox"
    ∧ (run env bot args).headless_mode = (env.config "browser" "headless").getD "True" := by
  refine ⟨fun h => ?_, fun u hu he => ?_, ?_, ?_⟩
  · simp [run, config_block, get_config_value, h, no_browser_result]
  · simp [run, config_block, get_config_value, hu, he, no_browser_result]
  · unfold run
    repeat' split
    all_goals simp [no_browser_result, with_session]
  · unfold run
    repeat' split
    all_goals simp [no_browser_result, with_session]

/-- C2 (counterexample): when the credential email key is missing but the
URL key is present, `run` raises a `KeyError` that propagates past the
caller, contradicting the claim that no exception propagates for any
missing required key. -/
theorem run_missing_email_propagates_error :
    config_no_email "vfs-url" "IE-NL" = some "https://visa.example"
    ∧ config_no_email "vfs-credential" "email" = none
    ∧ (run env_no_email base_adapter none).result
        = .error (Err.keyError "vfs-credential.email")
    ∧ (run env_no_email base_adapter none).browser_opened = false :=
  ⟨rfl, rfl, rfl, rfl⟩

theorem run_missing_config_behaviour_witness :
    (run env_no_url base_adapter none).result = .ok none
    ∧ (run env_no_email base_adapter none).result
        = .error (Err.keyError "vfs-credential.email")
    ∧ (run base_env base_adapter none).browser_type = "firefox" :=
  ⟨((run_missing_config_behaviour env_no_url base_adapter none).1 rfl).1,
    ((run_missing_config_behaviour env_no_email base_adapter none).2.1
      "https://visa.example" rfl rfl).1,
    (run_missing_config_behaviour base_env base_adapter none).2.2.1⟩

/-- C3 (amended): when the appointment check returns a non-empty date list,
`notify_appointment` is invoked exactly once, with a message containing
every value of the resolved query and every returned date; `run` returns
true provided the notification step itself raises no exception (if it does,
the exception is caught by the appointment-check handler and `run` returns
false). -/
theorem run_nonempty_dates_notify_and_result
    (env : Env) (bot : Adapter) (args : Option ArgsNamespace)
    (url em pw : String) (params : List (String × String)) (prompts : List String)
    (d : String) (ds : List String)
    (hurl : env.config "vfs-url"
      (bot.source_country_code ++ "-" ++ bot.destination_country_code) = some url)
    (hem : env.config "vfs-credential" "email" = some em)
    (hpw : env.config "vfs-credential" "password" = some pw)
    (hpar : get_appointment_params bot.appointment_param_keys args env.inp
      = .ok (params, prompts))
    (hgoto : env.goto url = .ok ())
    (hch : env.challenge_appears = true)
    (hpre : bot.pre_login_steps = .ok ())
    (hlog : bot.login em pw = .ok ())
    (hcheck : bot.check_for_appontment params = .ok (some (d :: ds)))
    (hnotify : (notify_appointment env.config env.get_client env.send params (d :: ds)).2
      = none) :
    (run env bot args).result = .ok (some true)
    ∧ (run env bot args).notify_msgs = [notify_message params (d :: ds)]
    ∧ (∀ v ∈ params.map Prod.snd, str_contains (notify_message params (d :: ds)) v)
    ∧ (∀ x ∈ d :: ds, str_contains (notify_message params (d :: ds)) x) := by
  have hrun := run_session_eq env bot args url em pw params prompts hurl hem hpw hpar
  rcases hn : notify_appointment env.config env.get_client env.send params (d :: ds)
    with ⟨atts, err⟩
  rw [hn] at hnotify
  dsimp at hnotify
  subst hnotify
  refine ⟨?_, ?_, fun v hv => notify_message_contains_value params (d :: ds) v hv,
    fun x hx => notify_message_contains_date params (d :: ds) x hx⟩
  · rw [hrun]
    simp [with_session, session_body, hgoto, hch, hpre, hlog, hcheck, hn, Except.map]
  · rw [hrun]
    simp [with_session, session_body, hgoto, hch, hpre, hlog, hcheck, hn]

/-- C3 (counterexample): with a complete route configuration but no
`notification.channels` entry, the appointment check returns a non-empty
date list and the notification step is invoked, yet `run` returns false —
`appointment_found = True` is only assigned after `notify_appointment`
returns, so an exception inside notification makes `run` report false. -/
theorem run_nonempty_dates_can_return_false :
    base_adapter.check_for_appontment [] = .ok (some ["2024-05-01", "2024-05-03"])
    ∧ (run env_no_channels base_adapter none).notify_msgs
        = [notify_message [] ["2024-05-01", "2024-05-03"]]
    ∧ (run env_no_channels base_adapter none).result = .ok (some false) :=
  ⟨rfl, rfl, rfl⟩

theorem run_nonempty_dates_notify_and_result_witness :
    (run base_env base_adapter none).result = .ok (some true)
    ∧ (run base_env base_adapter none).notify_msgs
        = [notify_message [] ["2024-05-01", "2024-05-03"]]
    ∧ str_contains (notify_message [] ["2024-05-01", "2024-05-03"]) "2024-05-01" :=
  have h := run_nonempty_dates_notify_and_result base_env base_adapter none
    "https://visa.example" "user@example.com" "hunter2" [] [] "2024-05-01" ["2024-05-03"]
    rfl rfl rfl rfl rfl rfl rfl rfl rfl rfl
  ⟨h.1, h.2.1, h.2.2.2 "2024-05-01" (by simp)⟩

/-- C4: when the appointment check throws or returns a falsy result (`None`
or the empty list), the notification step is never invoked, no delivery is
attempted, `run` returns false, and the exception does not escape `run`. -/
theorem run_empty_or_failed_check_returns_false
    (env : Env) (bot : Adapter) (args : Option ArgsNamespace)
    (url em pw : String) (params : List (String × String)) (prompts : List String)
    (hurl : env.config "vfs-url"
      (bot.source_country_code ++ "-" ++ bot.destination_country_code) = some url)
    (hem : env.config "vfs-credential" "email" = some em)
    (hpw : env.config "vfs-credential" "password" = some pw)
    (hpar : get_appointment_params bot.appointment_param_keys args env.inp
      = .ok (params, prompts))
    (hgoto : env.goto url = .ok ())
    (hch : env.challenge_appears = true)
    (hpre : bot.pre_login_steps = .ok ())
    (hlog : bot.login em pw = .ok ())
    (hcheck : (∃ e, bot.check_for_appontment params = .error e)
      ∨ bot.check_for_appontment params = .ok (some [])
      ∨ bot.check_for_appontment params = .ok none) :
    (run env bot args).result = .ok (some false)
    ∧ (run env bot args).notify_msgs = []
    ∧ (run env bot args).sends = [] := by
  have hrun := run_session_eq env bot args url em pw params prompts hurl hem hpw hpar
  rcases hcheck with ⟨e, hc⟩ | hc | hc <;>
    refine ⟨?_, ?_, ?_⟩ <;>
    simp [hrun, with_session, session_body, hgoto, hch, hpre, hlog, hc, Except.map]

theorem run_empty_or_failed_check_returns_false_witness :
    (run base_env adapter_no_dates none).result = .ok (some false)
    ∧ (run base_env adapter_no_dates none).notify_msgs = []
    ∧ (run base_env adapter_no_dates none).sends = [] :=
  run_empty_or_failed_check_returns_false base_env adapter_no_dates none
    "https://visa.example" "user@example.com" "hunter2" [] []
    rfl rfl rfl rfl rfl rfl rfl rfl (Or.inr (Or.inr rfl))

/-- C5 (amended): when the provided arguments carry a dict containing every
adapter-declared key, the collector uses the provided value for each key
mapped to a non-`None` value, prompts (with underscores replaced by spaces)
exactly for the keys mapped to `None`, and returns every required key in
declared order.  A key absent from a provided dict instead raises
`KeyError` (see the counterexample). -/
theorem get_appointment_params_covered_keys (inp : String → String)
    (keys : List String) (d : List (String × Option String))
    (hcov : ∀ k ∈ keys, (dict_find d k).isSome) :
    get_appointment_params keys (some ⟨some d⟩) inp
      = .ok (keys.map (fun k => (k, param_value d inp k)),
          (keys.filter (prompts_for d)).map prompt_label) := by
  induction keys with
  | nil => rfl
  | cons k ks ih =>
    have hk : (dict_find d k).isSome := hcov k (by simp)
    have ihk := ih (fun a ha => hcov a (by simp [ha]))
    rcases hfind : dict_find d k with _ | (_ | v)
    · rw [hfind] at hk
      simp at hk
    · simp only [get_appointment_params] at ihk
      simp [get_appointment_params, collect_params, hfind, ihk, param_value,
        prompts_for, List.filter_cons]
    · simp only [get_appointment_params] at ihk
      simp [get_appointment_params, collect_params, hfind, ihk, param_value,
        prompts_for, List.filter_cons]

/-- C5 (counterexample): with required keys `["visa_center","visa_category"]`
and provided args `{"visa_center": "Dublin"}`, the collector raises
`KeyError("visa_category")` instead of prompting for the missing key. -/
theorem get_appointment_params_missing_key_raises :
    get_appointment_params ["visa_center", "visa_category"]
        (some ⟨some [("visa_center", some "Dublin")]⟩) (fun _ => "prompted")
      = .error (Err.keyError "visa_category") := rfl

theorem get_appointment_params_covered_keys_witness :
    get_appointment_params ["visa_center", "visa_category"]
        (some ⟨some [("visa_center", some "Dublin"), ("visa_category", none)]⟩)
        (fun _ => "ShortStay")
      = .ok ([("visa_center", "Dublin"), ("visa_category", "ShortStay")],
          ["Enter the visa category: "]) :=
  get_appointment_params_covered_keys (fun _ => "ShortStay")
    ["visa_center", "visa_category"]
    [("visa_center", some "Dublin"), ("visa_category", none)] (by decide)

/-- C6: when the login step throws any exception, `run` closes the browser
and raises exactly one `LoginError` carrying the user-actionable
remediation message; no other exception type escapes from the login step. -/
theorem run_login_failure_raises_login_error
    (env : Env) (bot : Adapter) (args : Option ArgsNamespace)
    (url em pw : String) (params : List (String × String)) (prompts : List String)
    (e : Err)
    (hurl : env.config "vfs-url"
      (bot.source_country_code ++ "-" ++ bot.destination_country_code) = some url)
    (hem : env.config "vfs-credential" "email" = some em)
    (hpw : env.config "vfs-credential" "password" = some pw)
    (hpar : get_appointment_params bot.appointment_param_keys args env.inp
      = .ok (params, prompts))
    (hgoto : env.goto url = .ok ())
    (hch : env.challenge_appears = true)
    (hpre : bot.pre_login_steps = .ok ())
    (hlog : bot.login em pw = .error e) :
    (run env bot args).result = .error (Err.loginError login_failed_message)
    ∧ (run env bot args).close_count = 1
    ∧ (run env bot args).browser_opened = true := by
  have hrun := run_session_eq env bot args url em pw params prompts hurl hem hpw hpar
  refine ⟨?_, ?_, ?_⟩ <;>
    simp [hrun, with_session, session_body, hgoto, hch, hpre, hlog, Except.map]

theorem run_login_failure_raises_login_error_witness :
    (run base_env adapter_bad_login none).result
      = .error (Err.loginError login_failed_message)
    ∧ (run base_env adapter_bad_login none).close_count = 1
    ∧ (run base_env adapter_bad_login none).browser_opened = true :=
  run_login_failure_raises_login_error base_env adapter_bad_login none
    "https://visa.example" "user@example.com" "hunter2" [] []
    (Err.exception "bad credentials") rfl rfl rfl rfl rfl rfl rfl rfl

/-- C7: when the configured channels all resolve to clients, the fan-out
attempts delivery on every channel with the notification message,
whatever each delivery's outcome — a throwing channel is caught inside the
loop, so it neither prevents the remaining attempts nor makes an exception
escape `notify_appointment` (the escaped-exception component is `none`
regardless of the delivery outcomes, so the run's return value is
unaffected). -/
theorem notify_appointment_attempts_all_channels
    (cfg : Config) (gc : String → Except Err Unit)
    (send : String → String → Except Err Unit)
    (params : List (String × String)) (dates : List String) (chs : String)
    (hch : cfg "notification" "channels" = some chs)
    (hne : chs.length ≠ 0)
    (hres : ∀ c ∈ split_on_comma chs, gc c = .ok ()) :
    notify_appointment cfg gc send params dates
      = ((split_on_comma chs).map
          (fun c => (c, notify_message params dates, send c (notify_message params dates))),
        none) := by
  simp [notify_appointment, get_config_value, hch, hne,
    notify_loop_all_resolve gc send _ _ hres]

theorem notify_appointment_attempts_all_channels_witness :
    notify_appointment full_config (fun _ => .ok ()) bad_email_send [] ["2024-05-01"]
      = ([("email", notify_message [] ["2024-05-01"], .error (Err.exception "smtp down")),
          ("sms", notify_message [] ["2024-05-01"], .ok ())], none) :=
  notify_appointment_attempts_all_channels full_config (fun _ => .ok ())
    bad_email_send [] ["2024-05-01"] "email,sms" rfl (by decide) (fun c _ => rfl)

/-- C8: when the challenge-resolution marker does not appear within the
bounded wait, the wait raises the challenge timeout error (the Playwright
`TimeoutError` of the `wait_for_selector` call, the spec's
`ChallengeTimeoutError`), the error surfaces from `run`, and the browser
session is still torn down — closed exactly once — before `run` raises. -/
theorem run_challenge_timeout_raises_and_closes
    (env : Env) (bot : Adapter) (args : Option ArgsNamespace)
    (url em pw : String) (params : List (String × String)) (prompts : List String)
    (hurl : env.config "vfs-url"
      (bot.source_country_code ++ "-" ++ bot.destination_country_code) = some url)
    (hem : env.config "vfs-credential" "email" = some em)
    (hpw : env.config "vfs-credential" "password" = some pw)
    (hpar : get_appointment_params bot.appointment_param_keys args env.inp
      = .ok (params, prompts))
    (hgoto : env.goto url = .ok ())
    (hch : env.challenge_appears = false) :
    (run env bot args).result = .error (Err.timeoutError challenge_selector)
    ∧ (run env bot args).browser_opened = true
    ∧ (run env bot args).close_count = 1 := by
  have hrun := run_session_eq env bot args url em pw params prompts hurl hem hpw hpar
  refine ⟨?_, ?_, ?_⟩ <;>
    simp [hrun, with_session, session_body, hgoto, hch, Except.map]

theorem run_challenge_timeout_raises_and_closes_witness :
    (run env_no_challenge base_adapter none).result
      = .error (Err.timeoutError challenge_selector)
    ∧ (run env_no_challenge base_adapter none).browser_opened = true
    ∧ (run env_no_challenge base_adapter none).close_count = 1 :=
  run_challenge_timeout_raises_and_closes env_no_challenge base_adapter none
    "https://visa.example" "user@example.com" "hunter2" [] []
    rfl rfl rfl rfl rfl rfl

/-- C9 (amended): the `browser.headless` configuration value is read, with
default `"True"` when absent, but it is ignored: whenever a browser is
launched, it is launched with the hardcoded `headless=False`. -/
theorem run_ignores_headless_config (env : Env) (bot : Adapter)
    (args : Option ArgsNamespace) :
    (run env bot args).headless_mode = (env.config "browser" "headless").getD "True"
    ∧ (run env bot args).launch_headless
        = (if (run env bot args).browser_opened then some false else none) := by
  constructor
  · unfold run
    repeat' split
    all_goals simp [no_browser_result, with_session]
  · unfold run
    repeat' split
    all_goals simp_all [no_browser_result, with_session]

/-- C9 (counterexample): with no `browser.headless` entry, whose documented
default is true, a successful run still launches the browser with
`headless = false`. -/
theorem run_launches_headful_despite_default :
    base_env.config "browser" "headless" = none
    ∧ (run base_env base_adapter none).headless_mode = "True"
    ∧ (run base_env base_adapter none).browser_opened = true
    ∧ (run base_env base_adapter none).launch_headless = some false :=
  ⟨rfl, rfl, rfl, rfl⟩

/-- C10: when `run` is called with `args = None` and the adapter declares at
least one appointment parameter key, parameter collection raises an
`AttributeError` (from `getattr(None, "appointment_params")`) before any
browser is opened, instead of falling back to prompting. -/
theorem run_none_args_attribute_error
    (env : Env) (bot : Adapter) (k : String) (ks : List String) (url em pw : String)
    (hurl : env.config "vfs-url"
      (bot.source_country_code ++ "-" ++ bot.destination_country_code) = some url)
    (hem : env.config "vfs-credential" "email" = some em)
    (hpw : env.config "vfs-credential" "password" = some pw)
    (hkeys : bot.appointment_param_keys = k :: ks) :
    (run env bot none).result = .error (Err.attributeError attribute_error_message)
    ∧ (run env bot none).browser_opened = false := by
  constructor <;>
    simp [run, config_block_ok env.config _ url hurl, get_config_value, hem, hpw,
      hkeys, get_appointment_params, collect_params, no_browser_result]

theorem run_none_args_attribute_error_witness :
    (run base_env adapter_nl_keys none).result
      = .error (Err.attributeError attribute_error_message)
    ∧ (run base_env adapter_nl_keys none).browser_opened = false :=
  run_none_args_attribute_error base_env adapter_nl_keys "visa_center"
    ["visa_category", "visa_sub_category"]
    "https://visa.example" "user@example.com" "hunter2" rfl rfl rfl rfl

end VfsAppointmentBot
